import Mathlib

/-!
Verification of the HTTP server in `src/backend/main.py`.

The program is a single-file Flask application:

* it creates a Flask app,
* registers one route, `GET /api/test`, whose handler returns
  `jsonify({'message': 'Python backend is working!'})`,
* and, when executed as the main module, calls
  `app.run(host='127.0.0.1', port=5000, debug=True)`.

The embedding models HTTP methods, JSON values, the subset of Python
values that can appear as a `jsonify` argument, the route table built by
the decorator, Flask's request dispatch (including its default 404 and
405 responses), and the module-level execution guarded by
`if __name__ == '__main__'`.
-/

namespace StarPact

/-- HTTP request methods relevant to Flask routing. -/
inductive Method
  | GET | POST | PUT | DELETE | PATCH | HEAD | OPTIONS
  deriving DecidableEq

/-- JSON values, as produced by serialization of a Python object. -/
inductive Json
  | str (s : String)
  | num (n : Int)
  | bool (b : Bool)
  | null
  | arr (elems : List Json)
  | obj (fields : List (String × Json))

/-- Insert one key-value field into a key-sorted field list. -/
def insertField (p : String × Json) : List (String × Json) → List (String × Json)
  | [] => [p]
  | q :: qs => if p.1 ≤ q.1 then p :: q :: qs else q :: insertField p qs

/-- Insertion sort of object fields by key, for order-insensitive comparison. -/
def sortFields : List (String × Json) → List (String × Json)
  | [] => []
  | p :: ps => insertField p (sortFields ps)

mutual

/-- Canonical form of a JSON value: every object's fields sorted by key. -/
def Json.canon : Json → Json
  | .str s => .str s
  | .num n => .num n
  | .bool b => .bool b
  | .null => .null
  | .arr elems => .arr (Json.canonList elems)
  | .obj fields => .obj (sortFields (Json.canonFields fields))

/-- Canonical forms of a list of JSON values. -/
def Json.canonList : List Json → List Json
  | [] => []
  | x :: xs => Json.canon x :: Json.canonList xs

/-- Canonical forms of the values of an object's field list. -/
def Json.canonFields : List (String × Json) → List (String × Json)
  | [] => []
  | (k, v) :: fs => (k, Json.canon v) :: Json.canonFields fs

end

/-- JSON equivalence: equality up to the order of object fields. -/
def Json.equiv (a b : Json) : Prop := Json.canon a = Json.canon b

/-- Python values that can be passed to `jsonify`.  `objectV` stands for
an arbitrary object with no JSON serialization. -/
inductive PyValue
  | str (s : String)
  | int (n : Int)
  | boolean (b : Bool)
  | noneV
  | list (elems : List PyValue)
  | dict (fields : List (String × PyValue))
  | objectV (clsName : String)

mutual

/-- JSON serialization of a Python value; `none` when the value is not
JSON serializable (Python raises `TypeError` there). -/
def PyValue.toJson : PyValue → Option Json
  | .str s => some (.str s)
  | .int n => some (.num n)
  | .boolean b => some (.bool b)
  | .noneV => some .null
  | .list elems =>
    match PyValue.toJsonList elems with
    | some js => some (.arr js)
    | none => none
  | .dict fields =>
    match PyValue.toJsonFields fields with
    | some fs => some (.obj fs)
    | none => none
  | .objectV _ => none

/-- Serialization of a list of Python values. -/
def PyValue.toJsonList : List PyValue → Option (List Json)
  | [] => some []
  | x :: xs =>
    match PyValue.toJson x, PyValue.toJsonList xs with
    | some j, some js => some (j :: js)
    | _, _ => none

/-- Serialization of a Python dict's field list. -/
def PyValue.toJsonFields : List (String × PyValue) → Option (List (String × Json))
  | [] => some []
  | (k, v) :: fs =>
    match PyValue.toJson v, PyValue.toJsonFields fs with
    | some j, some js => some ((k, j) :: js)
    | _, _ => none

end

/-- An HTTP request: method, path, query string, headers and body. -/
structure Request where
  method : Method
  path : String
  query : List (String × String)
  headers : List (String × String)
  body : String

/-- An HTTP response: status code, content type and body. -/
structure Response where
  status : Nat
  mimetype : String
  body : Json

/-- Flask's `jsonify`: serialize the argument and wrap it in a 200
response with content type `application/json`; raise (here: `error`)
when the argument is not serializable. -/
def jsonify (v : PyValue) : Except String Response :=
  match PyValue.toJson v with
  | some j => Except.ok { status := 200, mimetype := "application/json", body := j }
  | none => Except.error "TypeError: Object is not JSON serializable"

/-- The dict literal in the handler body of `main.py`, line 9. -/
def payloadDict : PyValue :=
  PyValue.dict [("message", PyValue.str "Python backend is working!")]

/-- The JSON value that `jsonify(payloadDict)` serializes to. -/
def payloadJson : Json := Json.obj [("message", Json.str "Python backend is working!")]

/-- The handler registered on route `/api/test` (`def test():` in
`main.py`): it consults nothing of the request and returns
`jsonify({'message': 'Python backend is working!'})`. -/
def test (_req : Request) : Except String Response := jsonify payloadDict

/-- A route as registered by the `@app.route` decorator: a URL rule,
the allowed methods, and the handler. -/
structure Route where
  rule : String
  methods : List Method
  handler : Request → Except String Response

/-- Flask accepts, besides the registered methods, the automatically
added `HEAD` and `OPTIONS` methods on every route. -/
def allowedMethods (r : Route) : List Method := r.methods ++ [Method.HEAD, Method.OPTIONS]

/-- The route table of the app: exactly one registration,
`@app.route('/api/test', methods=['GET'])` with handler `test`. -/
def appRoutes : List Route := [{ rule := "/api/test", methods := [Method.GET], handler := test }]

/-- Flask's default response for an unmatched path. -/
def notFound : Response :=
  { status := 404, mimetype := "text/html; charset=utf-8", body := Json.str "404 Not Found" }

/-- Flask's default response for a matched path with a disallowed method. -/
def methodNotAllowed : Response :=
  { status := 405, mimetype := "text/html; charset=utf-8", body := Json.str "405 Method Not Allowed" }

/-- Flask's response when a handler raises an exception. -/
def internalError : Response :=
  { status := 500, mimetype := "text/html; charset=utf-8", body := Json.str "500 Internal Server Error" }

/-- Flask request dispatch: match the path against the route table;
unmatched paths get 404, disallowed methods get 405, a raising handler
gets 500, and otherwise the handler's response is returned. -/
def dispatch (routes : List Route) (req : Request) : Response :=
  match routes.find? (fun r => r.rule == req.path) with
  | some r =>
    if req.method ∈ allowedMethods r then
      match r.handler req with
      | Except.ok resp => resp
      | Except.error _ => internalError
    else methodNotAllowed
  | none => notFound

/-- The server state visible to handlers: the route registry built when
the module loads.  The source has no other mutable program state. -/
structure ServerState where
  routes : List Route

/-- Handling one request: the handler body is a single `return`
statement, so the state is passed through unchanged next to the
response. -/
def handleRequest (s : ServerState) (req : Request) : ServerState × Response :=
  (s, dispatch s.routes req)

/-- The server state right after the module is loaded. -/
def initialState : ServerState := { routes := appRoutes }

/-- Handling a whole sequence of requests, threading the server state. -/
def processAll (s : ServerState) : List Request → ServerState × List Response
  | [] => (s, [])
  | r :: rs =>
    let p := handleRequest s r
    let q := processAll p.1 rs
    (q.1, p.2 :: q.2)

/-- The configuration passed to `app.run` on line 12 of `main.py`. -/
structure RunConfig where
  host : String
  port : Nat
  debug : Bool
  deriving DecidableEq

/-- The state of the module after its top level has executed: the route
registry, and the run configuration of the development server when it
was started. -/
structure ModuleState where
  routes : List Route
  running : Option RunConfig

/-- Importing the module: the decorator registers `/api/test` on the
app; no server is started. -/
def importModule : ModuleState := { routes := appRoutes, running := none }

/-- Executing the file under a given `__name__`, OS environment and
argument vector: the route is registered always; `app.run(host=
'127.0.0.1', port=5000, debug=True)` runs only under `'__main__'`.
The literals come from line 12 of `main.py`; neither `env` nor `argv`
is consulted anywhere in the source. -/
def executeFile (name : String) (_env : List (String × String)) (_argv : List String) :
    ModuleState :=
  if name == "__main__" then
    { importModule with running := some { host := "127.0.0.1", port := 5000, debug := true } }
  else importModule

/-- The server lifecycle phases named by the spec. -/
inductive Phase
  | stopped
  | listening
  deriving DecidableEq

/-- The phases reachable in one transition: `app.run` moves `stopped`
to `listening`; no statement of the source leaves `listening`. -/
def phaseStep : Phase → List Phase
  | Phase.stopped => [Phase.listening]
  | Phase.listening => []

/-- The mapping the spec asks the response body to be JSON-equivalent
to, written from the spec's words. -/
def specPayload : Json := Json.obj [("message", Json.str "Python backend is working!")]

/-- A plain GET request to the endpoint. -/
def sampleGet : Request :=
  { method := Method.GET, path := "/api/test", query := [], headers := [], body := "" }

/-- A GET request to the endpoint carrying a query, headers and a body. -/
def sampleGetNoisy : Request :=
  { method := Method.GET, path := "/api/test", query := [("x", "1")],
    headers := [("X-Extra", "yes")], body := "ignored" }

/-- A GET request to a path with no registered route. -/
def sampleUnknown : Request :=
  { method := Method.GET, path := "/unknown", query := [], headers := [], body := "" }

/-- A POST request to the endpoint. -/
def samplePost : Request :=
  { method := Method.POST, path := "/api/test", query := [], headers := [], body := "" }

/-- Dispatching any GET request for `/api/test` yields the fixed JSON
response. -/
theorem dispatch_get_api_test (req : Request) (hm : req.method = Method.GET)
    (hp : req.path = "/api/test") :
    dispatch appRoutes req =
      { status := 200, mimetype := "application/json", body := payloadJson } := by
  simp [dispatch, appRoutes, hp, hm, allowedMethods, test, jsonify, payloadDict,
    PyValue.toJson, PyValue.toJsonFields, payloadJson]

/-- C1: every GET request to `/api/test` is answered with status 200,
content type `application/json`, and a body JSON-equivalent to the
mapping with `message` bound to `"Python backend is working!"`. -/
theorem getApiTest_ok (req : Request) (hm : req.method = Method.GET)
    (hp : req.path = "/api/test") :
    (dispatch appRoutes req).status = 200 ∧
    (dispatch appRoutes req).mimetype = "application/json" ∧
    Json.equiv (dispatch appRoutes req).body specPayload := by
  rw [dispatch_get_api_test req hm hp]
  exact ⟨rfl, rfl, rfl⟩

/-- Witness for C1 at a concrete request. -/
theorem getApiTest_ok_witness :
    (dispatch appRoutes sampleGet).status = 200 ∧
    (dispatch appRoutes sampleGet).mimetype = "application/json" ∧
    Json.equiv (dispatch appRoutes sampleGet).body specPayload :=
  getApiTest_ok sampleGet rfl rfl

/-- C2: a GET request to any path other than `/api/test` falls through
to the framework default and is answered with status 404 (hence not
200). -/
theorem unknown_path_404 (req : Request) (_hm : req.method = Method.GET)
    (hp : req.path ≠ "/api/test") :
    (dispatch appRoutes req).status = 404 := by
  have hne : ("/api/test" == req.path) = false := by
    simp [Ne.symm hp]
  simp [dispatch, appRoutes, hne, notFound]

/-- Witness for C2 at the concrete path `/unknown`. -/
theorem unknown_path_404_witness : (dispatch appRoutes sampleUnknown).status = 404 :=
  unknown_path_404 sampleUnknown rfl (by decide)

/-- C3: a POST request to `/api/test` is answered with status 405
(hence not 200), since only GET is registered for the route. -/
theorem post_api_test_405 (req : Request) (hm : req.method = Method.POST)
    (hp : req.path = "/api/test") :
    (dispatch appRoutes req).status = 405 := by
  simp [dispatch, appRoutes, hp, hm, allowedMethods, methodNotAllowed]

/-- Witness for C3 at a concrete POST request. -/
theorem post_api_test_405_witness : (dispatch appRoutes samplePost).status = 405 :=
  post_api_test_405 samplePost rfl rfl

/-- C4: the handler consults no request input: any two GET requests to
`/api/test`, whatever their query, headers or body, receive identical
responses. -/
theorem handler_ignores_request (r1 r2 : Request)
    (h1m : r1.method = Method.GET) (h1p : r1.path = "/api/test")
    (h2m : r2.method = Method.GET) (h2p : r2.path = "/api/test") :
    dispatch appRoutes r1 = dispatch appRoutes r2 := by
  rw [dispatch_get_api_test r1 h1m h1p, dispatch_get_api_test r2 h2m h2p]

/-- Witness for C4 on two concrete requests differing in query, headers
and body. -/
theorem handler_ignores_request_witness :
    dispatch appRoutes sampleGet = dispatch appRoutes sampleGetNoisy :=
  handler_ignores_request sampleGet sampleGetNoisy rfl rfl rfl rfl

/-- C5: handling a request has no side effect on the server state: the
state component returned by `handleRequest` is the input state, for
every state and every request. -/
theorem handler_no_side_effects :
    ∀ (s : ServerState) (req : Request), (handleRequest s req).1 = s :=
  fun _ _ => rfl

/-- C6: whatever the OS environment and argument vector, running the
file as the main module starts the server bound to `127.0.0.1`, port
5000, with debug mode enabled; the values are the source literals and
nothing external changes them. -/
theorem run_config_fixed :
    ∀ (env : List (String × String)) (argv : List String),
      (executeFile "__main__" env argv).running =
        some { host := "127.0.0.1", port := 5000, debug := true } :=
  fun _ _ => rfl

/-- C7: the lifecycle is the two-phase machine over `stopped` and
`listening`: the one transition out of `stopped` is to `listening`, and
no transition leaves `listening`. -/
theorem lifecycle_two_state :
    phaseStep Phase.stopped = [Phase.listening] ∧ phaseStep Phase.listening = [] :=
  ⟨rfl, rfl⟩

/-- C8: the payload is constant over the whole process lifetime: after
the server has handled any sequence of requests whatsoever, a GET
request to `/api/test` still receives exactly the body `payloadJson`. -/
theorem payload_constant (hist : List Request) (req : Request)
    (hm : req.method = Method.GET) (hp : req.path = "/api/test") :
    (dispatch (processAll initialState hist).1.routes req).body = payloadJson := by
  have hstate : ∀ (s : ServerState) (rs : List Request), (processAll s rs).1 = s := by
    intro s rs
    induction rs with
    | nil => rfl
    | cons r rs ih => simpa [processAll, handleRequest] using ih
  rw [hstate, show initialState.routes = appRoutes from rfl,
    dispatch_get_api_test req hm hp]

/-- Witness for C8: after one unrelated request, the concrete GET still
gets the constant body. -/
theorem payload_constant_witness :
    (dispatch (processAll initialState [sampleGetNoisy]).1.routes sampleGet).body
      = payloadJson :=
  payload_constant [sampleGetNoisy] sampleGet rfl rfl

/-- C9: the handler `test` is total: on every request it returns the
fixed 200 response and never takes the serialization error branch. -/
theorem test_total :
    ∀ req : Request,
      test req = Except.ok { status := 200, mimetype := "application/json", body := payloadJson } :=
  fun _ => rfl

/-- C10: importing the module (any module name other than `__main__`)
registers the route `/api/test` but starts no server; only execution as
the main module starts one. -/
theorem import_does_not_listen :
    (∀ (env : List (String × String)) (argv : List String),
        executeFile "backend.main" env argv = importModule) ∧
    importModule.running = none ∧
    importModule.routes.map Route.rule = ["/api/test"] ∧
    (executeFile "__main__" [] []).running.isSome = true := by
  refine ⟨fun _ _ => ?_, rfl, rfl, rfl⟩
  simp [executeFile]

end StarPact
